import Mathlib

/-!
Shallow embedding of `src/execute.py` (nimble-miner-public worker client).

The module drives a worker loop: acquire a task from the coordinator
(`register_particle`), execute it (`execute`), submit the completion
(`complete_task`), with a `while True: try ... except Exception` loop in
`perform`.  Network responses, the local filesystem and the outcome of the
(external) training step are modelled as explicit inputs; the side effects the
source performs (file opens, HTTP posts, console error reports) are recorded in
an explicit event trace.
-/

namespace NimbleMiner

/-- JSON values, as produced by `response.json()` and consumed by
`task['args']` in the source. -/
inductive JsonVal where
  | null
  | bool (b : Bool)
  | num (n : Int)
  | str (s : String)
  | arr (items : List JsonVal)
  | obj (fields : List (String × JsonVal))

/-- First-match association lookup on the fields of a JSON object, the
behaviour of `task['args']` when `task` is a dict. -/
def lookupField : List (String × JsonVal) → String → Option JsonVal
  | [], _ => none
  | (k, v) :: rest, key => if k = key then some v else lookupField rest key

/-- Python subscript `task[key]`: succeeds only on a dict that has the key. -/
def JsonVal.lookup : JsonVal → String → Option JsonVal
  | .obj fields, key => lookupField fields key
  | _, _ => none

/-- Python exception values relevant to the source.  `baseExit` stands for the
exceptions outside the `Exception` hierarchy (`KeyboardInterrupt`,
`SystemExit`), which `except Exception` does not catch. -/
inductive PyError where
  | exception (msg : String)
  | jsonDecodeError
  | keyError (k : String)
  | fileNotFound (path : String)
  | baseExit (msg : String)

/-- Whether `except Exception as e` catches the error: everything except the
`BaseException`-only values. -/
def PyError.catchable : PyError → Bool
  | .baseExit _ => false
  | _ => true

/-- An HTTP response as the source observes it: a status code and a body that
either parses as JSON (`some j`) or makes `response.json()` raise (`none`). -/
structure HttpResponse where
  status_code : Nat
  body : Option JsonVal

/-- One part of a multipart request body: a named file part (field name and the
local path of the opened file) or a named literal part with an
`application/json` payload. -/
inductive Part where
  | filePart (field : String) (path : String)
  | jsonPart (field : String) (payload : JsonVal)

/-- Observable effects the source performs, recorded as a trace. -/
inductive Event where
  | preparing
  | httpPostJson (url : String) (body : JsonVal)
  | acquired
  | executeCall
  | executed
  | openFile (path : String)
  | httpPost (url : String) (parts : List Part)
  | closeFile (path : String)
  | completed
  | errorReport (e : PyError)

/-- Result of one embedded operation: the effect trace it produced plus its
Python-level result (normal return or raised exception). -/
structure OpResult (α : Type) where
  trace : List Event
  result : Except PyError α

/-- Source line 13: the coordinator base URL. -/
def node_url : String := "https://mainnet.nimble.technology:443"

/-- URL of the acquire endpoint (source line 74). -/
def register_url : String := node_url ++ "/register_particle"

/-- URL of the submit endpoint (source line 85). -/
def complete_url : String := node_url ++ "/complete_task"

/-- The JSON address payload sent on both endpoints (source lines 75 and 90). -/
def addressJson (addr : String) : JsonVal := .obj [("address", .str addr)]

/-- Source lines 72-79, `register_particle(addr)`.  `post` is the outcome of
`requests.post(url, timeout=10, json={"address": addr})`: a transport error or
a response.  On a non-200 status the function raises
`Exception("Failed to init particle: Try later.")`; on 200 it parses the body
and returns `task['args']`. -/
def register_particle (addr : String) (post : Except PyError HttpResponse) :
    OpResult JsonVal where
  trace := [.httpPostJson register_url (addressJson addr)]
  result :=
    match post with
    | .error e => .error e
    | .ok response =>
      if response.status_code ≠ 200 then
        .error (.exception "Failed to init particle: Try later.")
      else
        match response.body with
        | none => .error .jsonDecodeError
        | some task =>
          match task.lookup "args" with
          | none => .error (.keyError "args")
          | some args => .ok args

/-- Path of the first artifact file opened at submission (source line 87). -/
def config_path : String := "my_model/config.json"

/-- Path of the second artifact file opened at submission (source line 88). -/
def training_args_path : String := "my_model/training_args.bin"

/-- Source lines 82-95, `complete_task(wallet_address)`.  `fs` tells which
local paths can be opened; `post` is the outcome of
`requests.post(url, files=files, timeout=60)`.  The source opens the two fixed
artifact files with bare `open(..., "rb")` (no `with`, no `close()`), builds
the multipart dict with the two file parts and the JSON-encoded address part
`"r"`, posts it, raises on a non-200 status, and otherwise returns
`response.json()`. -/
def complete_task (fs : String → Bool) (wallet_address : String)
    (post : Except PyError HttpResponse) : OpResult JsonVal :=
  if fs config_path = false then
    ⟨[], .error (.fileNotFound config_path)⟩
  else if fs training_args_path = false then
    ⟨[.openFile config_path], .error (.fileNotFound training_args_path)⟩
  else
    let parts := [Part.filePart "file1" config_path,
                  Part.filePart "file2" training_args_path,
                  Part.jsonPart "r" (addressJson wallet_address)]
    let tr := [Event.openFile config_path, Event.openFile training_args_path,
               Event.httpPost complete_url parts]
    match post with
    | .error e => ⟨tr, .error e⟩
    | .ok response =>
      if response.status_code ≠ 200 then
        ⟨tr, .error (.exception "Failed to complete task: Try later.")⟩
      else
        match response.body with
        | none => ⟨tr, .error .jsonDecodeError⟩
        | some ack => ⟨tr, .ok ack⟩

/-- Source lines 117-127: resolve the GPU index from the optional second CLI
argument.  `arg` is `none` when `len(sys.argv) <= 2`, and otherwise the result
of `int(sys.argv[2])` (`.error ()` models a `ValueError` on a non-numeric
string).  The returned Bool is true exactly when the warning branch of the
`except ValueError` handler ran (invalid index, fall back to 0). -/
def select_gpu_index (num_devices : Nat) (arg : Option (Except Unit Int)) :
    Int × Bool :=
  match arg with
  | none => (0, false)
  | some (.error ()) => (0, true)
  | some (.ok i) => if i < 0 ∨ (num_devices : Int) ≤ i then (0, true) else (i, false)

/-- The external inputs that determine one cycle of the worker loop: the
outcome of the acquire HTTP post, the outcome of the training step
`execute(task_args, gpu_index)`, the local filesystem at submission time, and
the outcome of the submit HTTP post. -/
structure CycleEnv where
  acquirePost : Except PyError HttpResponse
  execOutcome : Except PyError Unit
  fs : String → Bool
  submitPost : Except PyError HttpResponse

/-- How one iteration of the `while True` loop ends: fall through to the next
iteration (`next`, after either full success or a caught exception), or leave
the loop with an uncaught exception (`crashed`). -/
inductive CycleOutcome where
  | next
  | crashed (e : PyError)

/-- Source lines 131-142: one iteration of the `while True` body.  The trace
starts with the `Preparing` print and sleep, then the acquire post; a raised
error that is an `Exception` is caught by the `except Exception` handler which
prints exactly one error report; an error outside the `Exception` hierarchy
leaves the loop.  Later stages run only if the earlier ones returned
normally. -/
def runCycle (addr : String) (env : CycleEnv) : List Event × CycleOutcome :=
  match (register_particle addr env.acquirePost).result with
  | .error e =>
    if e.catchable then
      (Event.preparing :: (register_particle addr env.acquirePost).trace
        ++ [.errorReport e], .next)
    else
      (Event.preparing :: (register_particle addr env.acquirePost).trace, .crashed e)
  | .ok _task_args =>
    match env.execOutcome with
    | .error e =>
      if e.catchable then
        (Event.preparing :: (register_particle addr env.acquirePost).trace
          ++ [.acquired, .executeCall, .errorReport e], .next)
      else
        (Event.preparing :: (register_particle addr env.acquirePost).trace
          ++ [.acquired, .executeCall], .crashed e)
    | .ok _ =>
      match (complete_task env.fs addr env.submitPost).result with
      | .error e =>
        if e.catchable then
          (Event.preparing :: (register_particle addr env.acquirePost).trace
            ++ [.acquired, .executeCall, .executed]
            ++ (complete_task env.fs addr env.submitPost).trace
            ++ [.errorReport e], .next)
        else
          (Event.preparing :: (register_particle addr env.acquirePost).trace
            ++ [.acquired, .executeCall, .executed]
            ++ (complete_task env.fs addr env.submitPost).trace, .crashed e)
      | .ok _ack =>
        (Event.preparing :: (register_particle addr env.acquirePost).trace
          ++ [.acquired, .executeCall, .executed]
          ++ (complete_task env.fs addr env.submitPost).trace
          ++ [.completed], .next)

/-- The `while True` loop of source lines 131-142, run for `fuel` iterations
against the stream `envs` of per-cycle inputs.  Returns the concatenated trace
and `some e` when an uncaught exception left the loop (`none` while it is
still running when the fuel ends). -/
def runLoop (addr : String) : Nat → (Nat → CycleEnv) → List Event × Option PyError
  | 0, _ => ([], none)
  | n + 1, envs =>
    match runCycle addr (envs 0) with
    | (tr, .next) =>
      match runLoop addr n (fun i => envs (i + 1)) with
      | (tr2, res) => (tr ++ tr2, res)
    | (tr, .crashed e) => (tr, some e)

/-- How the startup phase of `perform` (source lines 99-127) ends: an early
return for a missing address, an early return when no CUDA device is
available, or entry into the worker loop with the resolved address and GPU
index. -/
inductive StartupResult where
  | exitMissingAddress
  | exitNoDevice
  | enterLoop (addr : String) (gpu_index : Int)

/-- Source lines 99-127: the startup phase of `perform()`.  `pyInt` models the
Python `int()` parser on strings (`.error ()` for a `ValueError`); `argv` is
`sys.argv`; `num_devices` is `torch.cuda.device_count()`.  The address check
comes first (line 99), then the device-count check (line 107), then GPU-index
resolution. -/
def performStartup (pyInt : String → Except Unit Int) (argv : List String)
    (num_devices : Nat) : StartupResult :=
  if argv.length < 2 then .exitMissingAddress
  else if num_devices = 0 then .exitNoDevice
  else
    .enterLoop (argv.getD 1 "")
      (select_gpu_index num_devices
        (if 2 < argv.length then some (pyInt (argv.getD 2 "")) else none)).1

/-- Source lines 98-142: `perform()` end to end.  When startup exits early the
loop is never entered and no network or execution event happens; otherwise the
worker loop runs with the resolved address. -/
def perform (pyInt : String → Except Unit Int) (argv : List String)
    (num_devices : Nat) (envs : Nat → CycleEnv) (fuel : Nat) :
    List Event × Option PyError :=
  match performStartup pyInt argv num_devices with
  | .enterLoop addr _gpu_index => runLoop addr fuel envs
  | _ => ([], none)

/-- The close events in a trace (the source never emits one: `complete_task`
uses bare `open` with no `close()`). -/
def closeEvents (tr : List Event) : List Event :=
  tr.filter fun e => match e with | .closeFile _ => true | _ => false

/-- The open events in a trace. -/
def openEvents (tr : List Event) : List Event :=
  tr.filter fun e => match e with | .openFile _ => true | _ => false

/-- The error reports in a trace, in order. -/
def reports (tr : List Event) : List PyError :=
  tr.filterMap fun e => match e with | .errorReport x => some x | _ => none

/-- C2: for every response to `register_particle`, a 200 status returns exactly
the `args` mapping embedded in the response's JSON body, and every non-200
status raises the `Failed to init particle` exception (the
CoordinatorUnavailable failure) and never returns a parsed task. -/
theorem register_particle_response_contract (addr : String) (r : HttpResponse) :
    (r.status_code = 200 → ∀ j a, r.body = some j → j.lookup "args" = some a →
      (register_particle addr (.ok r)).result = .ok a)
  ∧ (r.status_code ≠ 200 →
      (register_particle addr (.ok r)).result =
        .error (.exception "Failed to init particle: Try later.")) := by
  constructor
  · intro h j a hb ha
    simp [register_particle, h, hb, ha]
  · intro h
    simp [register_particle, h]

/-- Witness for C2 at a concrete 200 response carrying an `args` field and a
concrete 500 response. -/
theorem register_particle_response_contract_witness :
    (register_particle "0xABC" (.ok ⟨200, some (.obj [("args", .num 5)])⟩)).result
        = .ok (.num 5)
  ∧ (register_particle "0xABC" (.ok ⟨500, none⟩)).result =
      .error (.exception "Failed to init particle: Try later.") :=
  ⟨(register_particle_response_contract "0xABC"
        ⟨200, some (.obj [("args", .num 5)])⟩).1 rfl
      (.obj [("args", .num 5)]) (.num 5) rfl rfl,
   (register_particle_response_contract "0xABC" ⟨500, none⟩).2 (by decide)⟩

/-- C5: with `n > 0` devices, every requested index `0 ≤ i < n` is returned
unchanged by the selector, with no warning. -/
theorem select_gpu_index_valid (n : Nat) (i : Int) (hn : 0 < n)
    (h0 : 0 ≤ i) (hi : i < (n : Int)) :
    select_gpu_index n (some (.ok i)) = (i, false) := by
  have h : ¬ (i < 0 ∨ (n : Int) ≤ i) := by
    push_neg
    exact ⟨h0, hi⟩
  simp [select_gpu_index, h]

/-- Witness for C5 at `n = 2`, `i = 1`. -/
theorem select_gpu_index_valid_witness :
    0 < 2 ∧ select_gpu_index 2 (some (.ok 1)) = (1, false) :=
  ⟨by decide, select_gpu_index_valid 2 1 (by decide) (by decide) (by decide)⟩

/-- C6: with `n > 0` devices, a non-numeric requested index (the `int()` parse
raised `ValueError`) or an index outside `[0, n)` makes the selector return 0
with the warning flag set; the selector is a total function, so it never
raises to its caller. -/
theorem select_gpu_index_invalid (n : Nat) (hn : 0 < n) :
    select_gpu_index n (some (.error ())) = (0, true)
  ∧ ∀ i : Int, (i < 0 ∨ (n : Int) ≤ i) →
      select_gpu_index n (some (.ok i)) = (0, true) := by
  constructor
  · rfl
  · intro i hi
    simp [select_gpu_index, hi]

/-- Witness for C6 at `n = 1` with a non-numeric argument and with the
out-of-range index 5. -/
theorem select_gpu_index_invalid_witness :
    select_gpu_index 1 (some (.error ())) = (0, true)
  ∧ select_gpu_index 1 (some (.ok 5)) = (0, true) :=
  ⟨(select_gpu_index_invalid 1 (by decide)).1,
   (select_gpu_index_invalid 1 (by decide)).2 5 (by decide)⟩

/-- C7: a missing address argument, or zero available devices (whatever the
requested index), makes `perform` exit in its startup phase: the worker loop
is never entered and the trace is empty, so no acquire, execute or submit
operation is attempted. -/
theorem startup_failure_skips_loop (pyInt : String → Except Unit Int)
    (argv : List String) (nd : Nat) (envs : Nat → CycleEnv) (fuel : Nat)
    (h : argv.length < 2 ∨ nd = 0) :
    (argv.length < 2 → performStartup pyInt argv nd = .exitMissingAddress)
  ∧ (2 ≤ argv.length → nd = 0 → performStartup pyInt argv nd = .exitNoDevice)
  ∧ perform pyInt argv nd envs fuel = ([], none) := by
  refine ⟨?_, ?_, ?_⟩
  · intro h1
    simp [performStartup, h1]
  · intro h1 h2
    simp [performStartup, Nat.not_lt.mpr h1, h2]
  · rcases h with h1 | h2
    · simp [perform, performStartup, h1]
    · by_cases hl : argv.length < 2
      · simp [perform, performStartup, hl]
      · simp [perform, performStartup, hl, h2]

/-- Witness for C7: a one-element `argv` with three devices, and a full `argv`
with zero devices, both produce the empty behaviour. -/
theorem startup_failure_skips_loop_witness :
    perform (fun _ => .error ()) ["execute.py"] 3
        (fun _ => ⟨.ok ⟨500, none⟩, .ok (), fun _ => true, .ok ⟨500, none⟩⟩) 7
      = ([], none)
  ∧ performStartup (fun _ => .error ()) ["execute.py", "0xABC", "1"] 0
      = .exitNoDevice :=
  ⟨(startup_failure_skips_loop (fun _ => .error ()) ["execute.py"] 3
      (fun _ => ⟨.ok ⟨500, none⟩, .ok (), fun _ => true, .ok ⟨500, none⟩⟩) 7
      (.inl (by decide))).2.2,
   (startup_failure_skips_loop (fun _ => .error ()) ["execute.py", "0xABC", "1"] 0
      (fun _ => ⟨.ok ⟨500, none⟩, .ok (), fun _ => true, .ok ⟨500, none⟩⟩) 7
      (.inr rfl)).2.1 (by decide) rfl⟩

/-- C4: when both artifact files can be opened, `complete_task` opens exactly
the two fixed artifact files, in order, and sends exactly one multipart
request, containing exactly the two named file parts `file1` and `file2` plus
exactly one JSON-encoded address part `r` — the trace is exactly these three
events, whatever the request's outcome. -/
theorem complete_task_multipart_exact (fs : String → Bool) (addr : String)
    (post : Except PyError HttpResponse)
    (h1 : fs config_path = true) (h2 : fs training_args_path = true) :
    (complete_task fs addr post).trace =
      [.openFile config_path, .openFile training_args_path,
       .httpPost complete_url
         [.filePart "file1" config_path, .filePart "file2" training_args_path,
          .jsonPart "r" (addressJson addr)]] := by
  rcases post with e | ⟨sc, body⟩
  · simp [complete_task, h1, h2]
  · rcases body with _ | j
    · by_cases hs : sc = 200 <;> simp [complete_task, h1, h2, hs]
    · by_cases hs : sc = 200 <;> simp [complete_task, h1, h2, hs]

/-- Witness for C4 on a filesystem holding both artifact files and a raising
request. -/
theorem complete_task_multipart_exact_witness :
    (complete_task (fun _ => true) "0xABC"
        (.error (.exception "ConnectTimeout"))).trace =
      [.openFile config_path, .openFile training_args_path,
       .httpPost complete_url
         [.filePart "file1" config_path, .filePart "file2" training_args_path,
          .jsonPart "r" (addressJson "0xABC")]] :=
  complete_task_multipart_exact (fun _ => true) "0xABC"
    (.error (.exception "ConnectTimeout")) rfl rfl

/-- C8: when an artifact file cannot be opened, `complete_task` raises before
any HTTP request is sent: a missing configuration file gives an empty trace,
and a missing training-arguments file gives a trace holding only the first
open — in neither case does an `httpPost` event occur. -/
theorem complete_task_open_failure_no_post (fs : String → Bool) (addr : String)
    (post : Except PyError HttpResponse) :
    (fs config_path = false →
       complete_task fs addr post = ⟨[], .error (.fileNotFound config_path)⟩)
  ∧ (fs config_path = true → fs training_args_path = false →
       complete_task fs addr post =
         ⟨[.openFile config_path], .error (.fileNotFound training_args_path)⟩) := by
  constructor
  · intro h
    simp [complete_task, h]
  · intro h1 h2
    simp [complete_task, h1, h2]

/-- Witness for C8: an empty filesystem, and one holding only the
configuration file. -/
theorem complete_task_open_failure_no_post_witness :
    complete_task (fun _ => false) "0xABC" (.ok ⟨200, some .null⟩) =
      ⟨[], .error (.fileNotFound config_path)⟩
  ∧ complete_task (fun p => p == config_path) "0xABC" (.ok ⟨200, some .null⟩) =
      ⟨[.openFile config_path], .error (.fileNotFound training_args_path)⟩ :=
  ⟨(complete_task_open_failure_no_post (fun _ => false) "0xABC"
      (.ok ⟨200, some .null⟩)).1 rfl,
   (complete_task_open_failure_no_post (fun p => p == config_path) "0xABC"
      (.ok ⟨200, some .null⟩)).2 (by decide) (by decide)⟩

/-- C3 counterexample: at a concrete invocation whose request raises, the two
artifact handles are opened and no close event ever occurs — the source uses
bare `open` with no `with` block, `finally` or `close()`, so the handles are
not closed on this exit path, contradicting the claim. -/
theorem complete_task_close_missing_counterexample :
    openEvents (complete_task (fun _ => true) "0xABC"
        (.error (.exception "ReadTimeout"))).trace =
      [.openFile config_path, .openFile training_args_path]
  ∧ closeEvents (complete_task (fun _ => true) "0xABC"
        (.error (.exception "ReadTimeout"))).trace = [] := by
  constructor <;> rfl

/-- C3 amended: `complete_task` never explicitly closes the file handles it
opens, on any exit path — success, non-200 status, unparseable body, raised
request or failed open alike; release of the handles is left to the language
runtime. -/
theorem complete_task_never_closes (fs : String → Bool) (addr : String)
    (post : Except PyError HttpResponse) :
    closeEvents (complete_task fs addr post).trace = [] := by
  by_cases h1 : fs config_path = false
  · simp [complete_task, h1, closeEvents]
  · by_cases h2 : fs training_args_path = false
    · simp [complete_task, h1, h2, closeEvents]
    · rcases post with e | ⟨sc, body⟩
      · simp [complete_task, h1, h2, closeEvents]
      · rcases body with _ | j <;> by_cases hs : sc = 200 <;>
          simp [complete_task, h1, h2, hs, closeEvents]

/-- The acquire operation posts the address to the register endpoint exactly
once, whatever the outcome. -/
lemma register_particle_trace (addr : String) (post : Except PyError HttpResponse) :
    (register_particle addr post).trace =
      [.httpPostJson register_url (addressJson addr)] := rfl

/-- Every iteration of the loop body begins with the `Preparing` report and
sleep, whatever its inputs. -/
lemma runCycle_starts_preparing (addr : String) (env : CycleEnv) :
    ((runCycle addr env).1).head? = some .preparing := by
  cases hr : (register_particle addr env.acquirePost).result with
  | error e => by_cases hc : e.catchable <;> simp [runCycle, hr, hc]
  | ok t =>
    cases hx : env.execOutcome with
    | error e => by_cases hc : e.catchable <;> simp [runCycle, hr, hx, hc]
    | ok u =>
      cases u
      cases hs : (complete_task env.fs addr env.submitPost).result with
      | error e => by_cases hc : e.catchable <;> simp [runCycle, hr, hx, hs, hc]
      | ok a => simp [runCycle, hr, hx, hs]

/-- A cycle that ends in `next` makes the loop continue: the remaining fuel is
spent on the following cycles and their trace is appended. -/
lemma runLoop_next_step (addr : String) (envs : Nat → CycleEnv) (n : Nat)
    (h : (runCycle addr (envs 0)).2 = .next) :
    runLoop addr (n + 1) envs =
      ((runCycle addr (envs 0)).1 ++ (runLoop addr n (fun i => envs (i + 1))).1,
       (runLoop addr n (fun i => envs (i + 1))).2) := by
  rcases hcyc : runCycle addr (envs 0) with ⟨tr, out⟩
  rw [hcyc] at h
  simp only at h
  subst h
  rcases hrest : runLoop addr n (fun i => envs (i + 1)) with ⟨tr2, res⟩
  simp [runLoop, hcyc, hrest]

/-- C1: whichever of the three stages fails first with an `Exception`-class
error, the cycle's trace ends in exactly that one error report, the later
stages never run (an acquire failure leaves no execute call and no submit
events at all), the same stage is not re-attempted in the cycle, the cycle
ends in `next` rather than crashing the process, and the loop goes on to the
next iteration, whose trace again begins with the `Preparing` state. -/
theorem worker_cycle_failure_isolation (addr : String) (envs : Nat → CycleEnv)
    (e : PyError) (n : Nat) (hc : e.catchable = true) :
    ((register_particle addr (envs 0).acquirePost).result = .error e →
       runCycle addr (envs 0) =
         ([.preparing, .httpPostJson register_url (addressJson addr),
           .errorReport e], .next))
  ∧ (∀ t, (register_particle addr (envs 0).acquirePost).result = .ok t →
       (envs 0).execOutcome = .error e →
       runCycle addr (envs 0) =
         ([.preparing, .httpPostJson register_url (addressJson addr),
           .acquired, .executeCall, .errorReport e], .next))
  ∧ (∀ t, (register_particle addr (envs 0).acquirePost).result = .ok t →
       (envs 0).execOutcome = .ok () →
       (complete_task (envs 0).fs addr (envs 0).submitPost).result = .error e →
       runCycle addr (envs 0) =
         ([.preparing, .httpPostJson register_url (addressJson addr),
           .acquired, .executeCall, .executed]
           ++ (complete_task (envs 0).fs addr (envs 0).submitPost).trace
           ++ [.errorReport e], .next))
  ∧ ((runCycle addr (envs 0)).2 = .next →
       runLoop addr (n + 1) envs =
         ((runCycle addr (envs 0)).1 ++ (runLoop addr n (fun i => envs (i + 1))).1,
          (runLoop addr n (fun i => envs (i + 1))).2))
  ∧ ((runCycle addr (envs 1)).1).head? = some .preparing := by
  refine ⟨?_, ?_, ?_, ?_, ?_⟩
  · intro h
    simp [runCycle, h, hc, register_particle_trace]
  · intro t h hx
    simp [runCycle, h, hx, hc, register_particle_trace]
  · intro t h hx hs
    simp [runCycle, h, hx, hs, hc, register_particle_trace]
  · exact runLoop_next_step addr envs n
  · exact runCycle_starts_preparing addr (envs 1)

/-- Concrete per-cycle inputs whose acquire post answers HTTP 500 (the
end-to-end failure scenario of the spec). -/
def envAcquire500 : CycleEnv :=
  ⟨.ok ⟨500, none⟩, .ok (), fun _ => true, .ok ⟨200, some .null⟩⟩

/-- Witness for C1: against the HTTP-500 acquire response, the cycle is
exactly one error report after the acquire attempt and the loop continues. -/
theorem worker_cycle_failure_isolation_witness :
    runCycle "0xABC" envAcquire500 =
      ([.preparing, .httpPostJson register_url (addressJson "0xABC"),
        .errorReport (.exception "Failed to init particle: Try later.")], .next) :=
  (worker_cycle_failure_isolation "0xABC" (fun _ => envAcquire500)
      (.exception "Failed to init particle: Try later.") 0 rfl).1 rfl

/-- C9: two submit responses that both carry status 200 and a JSON-parseable
body are indistinguishable to the worker loop — `perform` discards the
acknowledgement value `complete_task` returns, so the cycle's whole observable
behaviour is independent of the acknowledgement's content. -/
theorem submit_ack_content_irrelevant (addr : String)
    (ap : Except PyError HttpResponse) (ex : Except PyError Unit)
    (fs : String → Bool) (j1 j2 : JsonVal) :
    runCycle addr ⟨ap, ex, fs, .ok ⟨200, some j1⟩⟩ =
      runCycle addr ⟨ap, ex, fs, .ok ⟨200, some j2⟩⟩ := by
  by_cases h1 : fs config_path = false
  · simp [runCycle, complete_task, h1]
  · by_cases h2 : fs training_args_path = false
    · simp [runCycle, complete_task, h1, h2]
    · simp [runCycle, complete_task, h1, h2]

/-- C10: an error outside the `Exception` hierarchy (a `KeyboardInterrupt` or
`SystemExit`, `catchable = false` here) raised at any stage is not caught by
the per-cycle handler: the loop ends mid-cycle with the error propagated, no
error report is printed, and no further cycle runs whatever fuel remains. -/
theorem base_exception_escapes_loop (addr : String) (envs : Nat → CycleEnv)
    (e : PyError) (n : Nat) (hc : e.catchable = false) :
    ((register_particle addr (envs 0).acquirePost).result = .error e →
       runLoop addr (n + 1) envs =
         ([.preparing, .httpPostJson register_url (addressJson addr)], some e))
  ∧ (∀ t, (register_particle addr (envs 0).acquirePost).result = .ok t →
       (envs 0).execOutcome = .error e →
       runLoop addr (n + 1) envs =
         ([.preparing, .httpPostJson register_url (addressJson addr),
           .acquired, .executeCall], some e))
  ∧ (∀ t, (register_particle addr (envs 0).acquirePost).result = .ok t →
       (envs 0).execOutcome = .ok () →
       (complete_task (envs 0).fs addr (envs 0).submitPost).result = .error e →
       runLoop addr (n + 1) envs =
         ([.preparing, .httpPostJson register_url (addressJson addr),
           .acquired, .executeCall, .executed]
           ++ (complete_task (envs 0).fs addr (envs 0).submitPost).trace,
          some e)) := by
  refine ⟨?_, ?_, ?_⟩
  · intro h
    simp [runLoop, runCycle, h, hc, register_particle_trace]
  · intro t h hx
    simp [runLoop, runCycle, h, hx, hc, register_particle_trace]
  · intro t h hx hs
    simp [runLoop, runCycle, h, hx, hs, hc, register_particle_trace]

/-- Concrete per-cycle inputs whose acquire post raises `KeyboardInterrupt`. -/
def envInterrupted : CycleEnv :=
  ⟨.error (.baseExit "KeyboardInterrupt"), .ok (), fun _ => true,
   .ok ⟨200, some .null⟩⟩

/-- Witness for C10: a `KeyboardInterrupt` during the acquire post ends the
loop mid-cycle with the interrupt propagated, though fuel for more cycles
remains. -/
theorem base_exception_escapes_loop_witness :
    runLoop "0xABC" 3 (fun _ => envInterrupted) =
      ([.preparing, .httpPostJson register_url (addressJson "0xABC")],
       some (.baseExit "KeyboardInterrupt")) :=
  (base_exception_escapes_loop "0xABC" (fun _ => envInterrupted)
      (.baseExit "KeyboardInterrupt") 2 rfl).1 rfl

end NimbleMiner
